import Mathlib

/-!
Verification of the coreason-council debate orchestration engine.

Shallow embedding of the core of `coreason_council` (the ChamberSpeaker
orchestrator, its data model, the mock collaborators and the budget /
entropy strategies) in Lean 4, together with proofs of the specified
properties.

Modelling conventions:
* Python `float` scores (entropy, thresholds, confidences) are modelled as
  `Rat`; every claim-relevant comparison involves exact decimal literals.
* `async` collaborator calls are deterministic values in `Except E`, with
  `asyncio.gather` modelled by `gather` below: results come back in task
  order and a raised exception aborts the whole batch (fail-fast).
* Wall-clock timestamps on transcript entries are omitted (no property
  depends on them); everything else of the data model is kept field by field.
* Python `dict[str, int]` values are association lists with first-position,
  last-value-wins insertion (`dictInsert`), matching dict semantics.
-/

set_option maxHeartbeats 1000000

/-- Topology tags from `core/types.py` (`TopologyType`). -/
inductive TopologyType where
  | star
  | chain
  | mesh
  | round_table
  deriving DecidableEq, Repr

/-- `core/types.py` `Persona`. -/
structure Persona where
  name : String
  system_prompt : String
  capabilities : List String := []
  deriving DecidableEq, Repr

/-- `core/types.py` `ProposerOutput`.  The open `metadata: dict[str, Any]`
mapping is modelled as a string-keyed association list with stringified
values (no claim inspects metadata values). -/
structure ProposerOutput where
  proposer_id : String
  content : String
  confidence : Rat
  metadata : List (String × String) := []
  deriving DecidableEq, Repr

/-- `core/types.py` `Critique`. -/
structure Critique where
  reviewer_id : String
  target_proposer_id : String
  content : String
  flaws_identified : List String
  agreement_score : Rat
  deriving DecidableEq, Repr

/-- Modelled from the spec: `VerdictOption` (label, content, supporters)
lives in `core/models/verdict.py`, which is absent from the provided
source snapshot; only its tests and callers are present. -/
structure VerdictOption where
  label : String
  content : String
  supporters : List String
  deriving DecidableEq, Repr

/-- `core/types.py` `Verdict`, extended with the `alternatives` field.
The `types.py` snapshot in the source lacks `alternatives`, but
`speaker.py` (same snapshot) reads `verdict.alternatives`, and the tests
use the later `core/models/verdict.py` revision that carries it; the
field is modelled from the spec (empty list = consensus). -/
structure Verdict where
  content : String
  confidence_score : Rat
  supporting_evidence : List String := []
  dissenting_opinions : List String := []
  alternatives : List VerdictOption := []
  deriving DecidableEq, Repr

/-- `core/types.py` `TranscriptEntry` (UTC timestamp omitted, see header). -/
structure TranscriptEntry where
  actor : String
  action : String
  content : String
  deriving DecidableEq, Repr

/-- `core/types.py` `CouncilTrace`. -/
structure CouncilTrace where
  session_id : String
  roster : List String
  transcripts : List TranscriptEntry := []
  topology : TopologyType
  entropy_score : Option Rat := none
  vote_tally : Option (List (String × Nat)) := none
  final_verdict : Option Verdict := none
  deriving DecidableEq, Repr

/-- `CouncilTrace.log_interaction`: append one transcript entry. -/
def CouncilTrace.log_interaction (t : CouncilTrace) (actor action content : String) :
    CouncilTrace :=
  { t with transcripts := t.transcripts ++ [{ actor := actor, action := action, content := content }] }

/-- Python dict insertion: overwrite the value at an existing key in place,
append a fresh key at the end. -/
def dictInsert (d : List (String × Nat)) (k : String) (v : Nat) : List (String × Nat) :=
  match d with
  | [] => [(k, v)]
  | (k0, v0) :: rest => if k0 = k then (k0, v) :: rest else (k0, v0) :: dictInsert rest k v

/-- Python dict lookup. -/
def dictLookup (d : List (String × Nat)) (k : String) : Option Nat :=
  match d with
  | [] => none
  | (k0, v0) :: rest => if k0 = k then some v0 else dictLookup rest k

/-- A Python dict comprehension over a list of key-value pairs. -/
def dictOfPairs (ps : List (String × Nat)) : List (String × Nat) :=
  ps.foldl (fun d kv => dictInsert d kv.1 kv.2) []

/-- `len(set(xs))`: number of distinct elements. -/
def distinctCount (l : List String) : Nat := l.dedup.length

/-- The pairs fed to the vote-tally dict comprehension in
`ChamberSpeaker.resolve_query`: `{alt.label: len(set(alt.supporters)) ...}`. -/
def votePairs (alts : List VerdictOption) : List (String × Nat) :=
  alts.map (fun a => (a.label, distinctCount a.supporters))

/-- The Proposer capability (`core/proposer.py` `BaseProposer`), as consumed
by the orchestrator.  `revise_proposal` is part of the interface the
orchestrator calls (`speaker.py` line 181); its declaration is absent from
the `proposer.py` snapshot and is modelled from the spec there. -/
structure Proposer (E : Type) where
  propose : String → Persona → Except E ProposerOutput
  critique_proposal : ProposerOutput → Persona → Except E Critique
  revise_proposal : ProposerOutput → List Critique → Persona → Except E ProposerOutput

/-- The configured components of `ChamberSpeaker` (`core/speaker.py`):
proposers, personas, the dissenter entropy estimator
(`BaseDissenter.calculate_entropy`), the aggregator
(`BaseAggregator.aggregate`), and the two tuning knobs. -/
structure ChamberSpeaker (E : Type) where
  proposers : List (Proposer E)
  personas : List Persona
  dissenter : List ProposerOutput → Except E Rat
  aggregate : List ProposerOutput → List Critique → Bool → Except E Verdict
  entropy_threshold : Rat := 1/10
  max_rounds : Int := 3

/-- `asyncio.gather` over deterministic tasks: results in task order, first
raised exception aborts the whole batch. -/
def gather {E α : Type} : List (Except E α) → Except E (List α)
  | [] => Except.ok []
  | t :: ts => do
    let v ← t
    let vs ← gather ts
    Except.ok (v :: vs)

/-- The peer-critique fan-out of `resolve_query` (speaker.py lines 156-162):
target-major, critic-minor iteration over
`enumerate(zip(proposers, proposals))` and
`enumerate(zip(proposers, personas))`, skipping self-pairs. -/
def critique_tasks {E : Type} (proposers : List (Proposer E)) (personas : List Persona)
    (proposals : List ProposerOutput) : List (Except E Critique) :=
  ((proposers.zip proposals).enum).flatMap (fun ti =>
    ((proposers.zip personas).enum).filterMap (fun cj =>
      if ti.1 = cj.1 then none
      else some (cj.2.1.critique_proposal ti.2.2 cj.2.2)))

/-- The revision fan-out of `resolve_query` (speaker.py lines 175-181):
each proposer revises its own proposal against the critiques whose
`target_proposer_id` matches the proposal. -/
def revision_tasks {E : Type} (proposers : List (Proposer E)) (personas : List Persona)
    (proposals : List ProposerOutput) (critiques : List Critique) :
    List (Except E ProposerOutput) :=
  (proposers.zip (proposals.zip personas)).map (fun t =>
    t.1.revise_proposal t.2.1
      (critiques.filter (fun c => c.target_proposer_id = t.2.1.proposer_id)) t.2.2)

/-- The mutable loop variables of `resolve_query`-s while-loop
(speaker.py lines 122-125): `proposals`, `critiques`, `current_round`
and the trace being accumulated. -/
structure LoopState where
  proposals : List ProposerOutput
  critiques : List Critique
  current_round : Int
  trace : CouncilTrace

/-- The Divergence-Convergence while-loop of `resolve_query` (speaker.py
lines 128-193).  Returns the final loop state together with the
`is_deadlock` flag.  One iteration: compute entropy, record it on the
trace, converge when `entropy <= entropy_threshold`, deadlock when
`current_round >= current_max_rounds`, otherwise switch topology to
ROUND_TABLE, gather all-pairs critiques, log them, gather revisions,
log them, increment the round and repeat. -/
def resolveLoop {E : Type} (cfg : ChamberSpeaker E) (current_max_rounds : Int)
    (s : LoopState) : Except E (LoopState × Bool) := do
  let entropy ← cfg.dissenter s.proposals
  let trace := { s.trace with entropy_score := some entropy }
  if entropy ≤ cfg.entropy_threshold then
    Except.ok ({ s with trace := trace }, false)
  else if s.current_round ≥ current_max_rounds then
    Except.ok ({ s with trace := trace }, true)
  else do
    let trace := { trace with topology := TopologyType.round_table }
    let critiques ← gather (critique_tasks cfg.proposers cfg.personas s.proposals)
    let trace := critiques.foldl
      (fun t c => t.log_interaction c.reviewer_id
        ("critique_round_" ++ toString s.current_round) c.content) trace
    let proposals ← gather (revision_tasks cfg.proposers cfg.personas s.proposals critiques)
    let trace := (proposals.zip cfg.personas).foldl
      (fun t pp => t.log_interaction pp.2.name
        ("revise_round_" ++ toString s.current_round) pp.1.content) trace
    resolveLoop cfg current_max_rounds
      { proposals := proposals, critiques := critiques,
        current_round := s.current_round + 1, trace := trace }
termination_by (current_max_rounds - s.current_round).toNat
decreasing_by simp_wf; omega

/-- `ChamberSpeaker.resolve_query` (speaker.py lines 80-214).  The
nondeterministic `uuid.uuid4()` session id is a parameter.  Phase 1
gathers proposals and logs them in roster order; phase 2 is
`resolveLoop`; phase 3 aggregates, stores and logs the verdict, and
populates the vote tally (per-option distinct-supporter counts when the
verdict carries alternatives, `Consensus -> number of proposers`
otherwise). -/
def resolve_query {E : Type} (cfg : ChamberSpeaker E) (session_id query : String)
    (max_rounds : Option Int) : Except E (Verdict × CouncilTrace) := do
  let roster_names := cfg.personas.map Persona.name
  let current_max_rounds := match max_rounds with
    | some m => m
    | none => cfg.max_rounds
  let trace : CouncilTrace :=
    { session_id := session_id, roster := roster_names, topology := TopologyType.star }
  let proposals ← gather ((cfg.proposers.zip cfg.personas).map
    (fun pp => pp.1.propose query pp.2))
  let trace := (proposals.zip cfg.personas).foldl
    (fun t pp => t.log_interaction pp.2.name "propose" pp.1.content) trace
  let r ← resolveLoop cfg current_max_rounds
    { proposals := proposals, critiques := [], current_round := 1, trace := trace }
  let final := r.1
  let is_deadlock := r.2
  let verdict ← cfg.aggregate final.proposals final.critiques is_deadlock
  let trace := { final.trace with final_verdict := some verdict }
  let trace := trace.log_interaction "Aggregator" "verdict" verdict.content
  let tally :=
    if verdict.alternatives.isEmpty then [("Consensus", cfg.proposers.length)]
    else dictOfPairs (votePairs verdict.alternatives)
  let trace := { trace with vote_tally := some tally }
  Except.ok (verdict, trace)

/-- `core/proposer.py` `MockProposer` configuration.  `delay_seconds` is
omitted (time is not modelled); the source field `proposer_id_prefix` is
renamed to `proposer_id_stem` here.  `failure_exception` carries the
exception the mock raises on every backend call when configured. -/
structure MockProposer (E : Type) where
  return_content : String := "Mock response"
  return_confidence : Rat := 9/10
  proposer_id_stem : String := "mock-proposer"
  failure_exception : Option E := none

/-- `MockProposer.propose`: raise the configured failure, else return a
`ProposerOutput` with id `{stem}-{persona.name}` and content
`{return_content} (Query: {query}, Persona: {persona.name})`.  The
non-string metadata values of the source are stringified. -/
def MockProposer.do_propose {E : Type} (m : MockProposer E) (query : String)
    (persona : Persona) : Except E ProposerOutput :=
  match m.failure_exception with
  | some e => Except.error e
  | none => Except.ok
      { proposer_id := m.proposer_id_stem ++ "-" ++ persona.name,
        content := m.return_content ++ " (Query: " ++ query ++ ", Persona: " ++ persona.name ++ ")",
        confidence := m.return_confidence,
        metadata := [("mock", "True"),
                     ("persona_capabilities", String.intercalate "," persona.capabilities)] }

/-- `MockProposer.critique_proposal` (apostrophes of the source content
string are dropped, the rest is kept verbatim). -/
def MockProposer.do_critique {E : Type} (m : MockProposer E) (target : ProposerOutput)
    (persona : Persona) : Except E Critique :=
  match m.failure_exception with
  | some e => Except.error e
  | none => Except.ok
      { reviewer_id := persona.name,
        target_proposer_id := target.proposer_id,
        content := "Critique by " ++ persona.name ++ ": The proposal " ++ target.content
          ++ " has some issues. (Target: " ++ target.proposer_id ++ ")",
        flaws_identified := ["Mock Flaw 1", "Mock Flaw 2"],
        agreement_score := 1/2 }

/-- Modelled from the spec: `MockProposer.revise_proposal` is absent from
the `proposer.py` snapshot (only `speaker.py` and the tests call it).
Per spec 4.2: with an empty critique list it returns the original object
unchanged without any backend call; otherwise it performs a backend call
(so a configured failure raises) and returns a new output that preserves
the original proposer identifier. -/
def MockProposer.do_revise {E : Type} (m : MockProposer E) (original : ProposerOutput)
    (critiques : List Critique) (persona : Persona) : Except E ProposerOutput :=
  if critiques.isEmpty then Except.ok original
  else
    match m.failure_exception with
    | some e => Except.error e
    | none => Except.ok
        { original with
          content := "Revised: " ++ original.content ++ " (Persona: " ++ persona.name ++ ")",
          confidence := m.return_confidence }

/-- Package a `MockProposer` as the `Proposer` capability. -/
def Proposer.ofMock {E : Type} (m : MockProposer E) : Proposer E :=
  { propose := m.do_propose,
    critique_proposal := m.do_critique,
    revise_proposal := m.do_revise }

/-- `core/dissenter.py` `MockDissenter.calculate_entropy`: returns the
configured `default_entropy_score` unconditionally, for any list of
proposals (there is no short-circuit for zero or one proposals in the
source). -/
def mock_calculate_entropy {E : Type} (default_entropy_score : Rat) :
    List ProposerOutput → Except E Rat :=
  fun _ => Except.ok default_entropy_score

/-- Modelled from the spec: `MockAggregator` lives in
`core/aggregator.py`, which is absent from the source snapshot (only its
tests and callers are present).  Reference policy per spec 4.3: on
deadlock, a fixed MINORITY REPORT verdict with confidence pinned at 0.1
whose two alternatives split the proposers by index parity (Option A =
even indices, Option B = odd indices); otherwise a consensus verdict
built from the configured defaults, with empty alternatives. -/
structure MockAggregator where
  default_content : String := "Mock Verdict"
  default_confidence : Rat := 8/10
  default_supporting_evidence : List String := []
  default_dissenting_opinions : List String := []

/-- Modelled from the spec: `MockAggregator.aggregate` (see
`MockAggregator`). -/
def MockAggregator.do_aggregate {E : Type} (a : MockAggregator)
    (proposals : List ProposerOutput) (critiques : List Critique)
    (is_deadlock : Bool) : Except E Verdict :=
  if is_deadlock then
    Except.ok
      { content := "MINORITY REPORT: The Council is deadlocked.",
        confidence_score := 1/10,
        alternatives :=
          [{ label := "Option A",
             content := "Position of the even-indexed proposers",
             supporters := proposals.enum.filterMap
               (fun ip => if ip.1 % 2 = 0 then some ip.2.proposer_id else none) },
           { label := "Option B",
             content := "Position of the odd-indexed proposers",
             supporters := proposals.enum.filterMap
               (fun ip => if ip.1 % 2 = 0 then none else some ip.2.proposer_id) }] }
  else
    Except.ok
      { content := a.default_content ++ " (Based on inputs from: "
          ++ String.intercalate ", " (proposals.map ProposerOutput.proposer_id)
          ++ "; Critiqued by: "
          ++ String.intercalate ", " (critiques.map Critique.reviewer_id) ++ ")",
        confidence_score := a.default_confidence,
        supporting_evidence := a.default_supporting_evidence,
        dissenting_opinions := a.default_dissenting_opinions }

/-- Modelled from the spec: the `JaccardDissenter` tokenizer (the class is
absent from the source snapshot; only its tests and `main.py` reference
it).  Word characters per the regex `\w`: letters, digits, underscore
(ASCII model of the Python semantics). -/
def wordChar (c : Char) : Bool := c.isAlphanum || c = '_'

/-- Accumulator for `wordRuns`: `acc` holds the reversed current run. -/
def wordRunsAux : List Char → List Char → List (List Char)
  | [], acc => if acc.isEmpty then [] else [acc.reverse]
  | c :: cs, acc =>
    if wordChar c then wordRunsAux cs (c :: acc)
    else if acc.isEmpty then wordRunsAux cs []
    else acc.reverse :: wordRunsAux cs []

/-- Maximal runs of word characters of a character list (the `\w+` matches,
in order). -/
def wordRuns (l : List Char) : List (List Char) := wordRunsAux l []

/-- Modelled from the spec: `JaccardDissenter._tokenize`: case-fold,
extract word-character tokens, return them as a set. -/
def jaccard_tokenize (s : String) : Finset String :=
  ((wordRuns (s.data.map Char.toLower)).map (fun cs => String.mk cs)).toFinset

/-- Modelled from the spec: `JaccardDissenter._calculate_jaccard_similarity`:
1.0 when both token sets are empty, 0.0 when exactly one is empty, else
`|intersection| / |union|`. -/
def calculate_jaccard_similarity (a b : String) : Rat :=
  let sa := jaccard_tokenize a
  let sb := jaccard_tokenize b
  if sa = ∅ ∧ sb = ∅ then 1
  else if sa = ∅ ∨ sb = ∅ then 0
  else ((sa ∩ sb).card : Rat) / ((sa ∪ sb).card : Rat)

/-- Similarities of all unordered pairs of contents, in iteration order. -/
def pairwise_similarities : List String → List Rat
  | [] => []
  | x :: xs => xs.map (calculate_jaccard_similarity x) ++ pairwise_similarities xs

/-- Modelled from the spec: `JaccardDissenter.calculate_entropy`: 0.0 for
zero or one proposals, else one minus the average pairwise Jaccard
similarity of the proposal contents. -/
def jaccard_calculate_entropy (proposals : List ProposerOutput) : Rat :=
  if proposals.length ≤ 1 then 0
  else
    let sims := pairwise_similarities (proposals.map ProposerOutput.content)
    1 - sims.sum / (sims.length : Rat)

/-- Modelled from the spec: `BudgetExceededError` from `core/budget.py`
(absent from the source snapshot; only its tests and callers are
present). -/
inductive BudgetExceededError where
  | exceeded
  deriving DecidableEq, Repr

/-- Modelled from the spec: `SimpleBudgetManager.calculate_cost`:
`n_proposers` for at most one round, else
`n_proposers + (n_rounds - 1) * n_proposers ^ 2`. -/
def calculate_cost (n_proposers n_rounds : Int) : Int :=
  if n_rounds ≤ 1 then n_proposers
  else n_proposers + (n_rounds - 1) * n_proposers ^ 2

/-- Modelled from the spec: `SimpleBudgetManager.check_budget`: permit the
requested rounds when affordable, else downgrade to one round when that
is affordable, else fail with `BudgetExceededError`. -/
def check_budget (max_budget n_proposers requested_rounds : Int) :
    Except BudgetExceededError Int :=
  if calculate_cost n_proposers requested_rounds ≤ max_budget then
    Except.ok requested_rounds
  else if calculate_cost n_proposers 1 ≤ max_budget then
    Except.ok 1
  else
    Except.error BudgetExceededError.exceeded

/-- Modelled from the spec: the budget-aware `resolve_query` entry point.
The `ChamberSpeaker.__init__` snapshot in the source has no
`budget_manager` parameter, but its caller `main.py` passes one and the
tests construct the speaker with it; per spec 4.5 INIT, when a budget
manager is configured, `check_budget(len(proposers), effective_max_rounds)`
runs before any proposer work and its returned round count is used for
the rest of the session. -/
def resolve_query_with_budget {E : Type} (cfg : ChamberSpeaker E)
    (budget_manager : Option (Int → Int → Except E Int))
    (session_id query : String) (max_rounds : Option Int) :
    Except E (Verdict × CouncilTrace) :=
  let requested := match max_rounds with
    | some m => m
    | none => cfg.max_rounds
  match budget_manager with
  | none => resolve_query cfg session_id query max_rounds
  | some cb => do
      let permitted ← cb (cfg.proposers.length : Int) requested
      resolve_query cfg session_id query (some permitted)

/-- A proposer whose three operations are total functions that never
raise; lifting it with `Proposer.ofPure` yields the failure-free
collaborators the round-accounting and ordering properties quantify
over. -/
structure PureProposer where
  propose : String → Persona → ProposerOutput
  critique_proposal : ProposerOutput → Persona → Critique
  revise_proposal : ProposerOutput → List Critique → Persona → ProposerOutput

/-- Lift a `PureProposer` into the fallible `Proposer` capability. -/
def Proposer.ofPure {E : Type} (p : PureProposer) : Proposer E :=
  { propose := fun q pe => Except.ok (p.propose q pe),
    critique_proposal := fun t pe => Except.ok (p.critique_proposal t pe),
    revise_proposal := fun o cs pe => Except.ok (p.revise_proposal o cs pe) }

/-- The critiques a debate round produces for failure-free proposers, in
the iteration order of `critique_tasks` (target-major, critic-minor,
self-pairs skipped). -/
def critique_batch (pps : List PureProposer) (personas : List Persona)
    (proposals : List ProposerOutput) : List Critique :=
  ((pps.zip proposals).enum).flatMap (fun ti =>
    ((pps.zip personas).enum).filterMap (fun cj =>
      if ti.1 = cj.1 then none
      else some (cj.2.1.critique_proposal ti.2.2 cj.2.2)))

/-- The revised proposals a debate round produces for failure-free
proposers, in roster order. -/
def revision_batch (pps : List PureProposer) (personas : List Persona)
    (proposals : List ProposerOutput) (critiques : List Critique) :
    List ProposerOutput :=
  (pps.zip (proposals.zip personas)).map (fun t =>
    t.1.revise_proposal t.2.1
      (critiques.filter (fun c => c.target_proposer_id = t.2.1.proposer_id)) t.2.2)

/-- The trace `resolve_query` starts from and hands to the loop: fresh
trace, STAR topology, one `propose` entry per persona in roster order. -/
def initialLoopState {E : Type} (cfg : ChamberSpeaker E) (session_id : String)
    (proposals : List ProposerOutput) : LoopState :=
  { proposals := proposals, critiques := [], current_round := 1,
    trace := (proposals.zip cfg.personas).foldl
      (fun t pp => t.log_interaction pp.2.name "propose" pp.1.content)
      { session_id := session_id, roster := cfg.personas.map Persona.name,
        topology := TopologyType.star } }

/-- The trace finalization of `resolve_query` phase 3: store the verdict,
log the `verdict` entry, set the vote tally. -/
def finalizeTrace {E : Type} (cfg : ChamberSpeaker E) (final : LoopState) (v : Verdict) :
    CouncilTrace :=
  { ({ final.trace with final_verdict := some v }.log_interaction
      "Aggregator" "verdict" v.content) with
    vote_tally := some (if v.alternatives.isEmpty then [("Consensus", cfg.proposers.length)]
                        else dictOfPairs (votePairs v.alternatives)) }


/-- Test fixture for the lone-proposer scenario of the spec (one
`MockProposer`, a dissenter configured at entropy 0.9, threshold 0.5,
default three rounds), embedded directly from the source mocks. -/
def cfgC1 : ChamberSpeaker String :=
  { proposers := [Proposer.ofMock { return_content := "Lone Wolf", proposer_id_stem := "p1" }],
    personas := [{ name := "LonePersona", system_prompt := "You are alone" }],
    dissenter := mock_calculate_entropy (9/10),
    aggregate := MockAggregator.do_aggregate {},
    entropy_threshold := 1/2, max_rounds := 3 }

/-- The proposal the lone mock proposer produces in `cfgC1`. -/
def c1out : ProposerOutput :=
  { proposer_id := "p1-LonePersona",
    content := "Lone Wolf (Query: Am I alone?, Persona: LonePersona)",
    confidence := 9/10,
    metadata := [("mock", "True"), ("persona_capabilities", "")] }

/-- Trace shape of the `cfgC1` session. -/
def c1trace (ts : List TranscriptEntry) (topo : TopologyType) (es : Option Rat) : CouncilTrace :=
  { session_id := "sid", roster := ["LonePersona"], transcripts := ts, topology := topo,
    entropy_score := es }

/-- Transcript entries of the `cfgC1` session. -/
def c1entry (action : String) : TranscriptEntry :=
  { actor := "LonePersona", action := action, content := c1out.content }

/-- Final loop state of the `cfgC1` session. -/
def c1final : LoopState :=
  { proposals := [c1out], critiques := [], current_round := 3,
    trace := c1trace [c1entry "propose", c1entry "revise_round_1", c1entry "revise_round_2"]
      TopologyType.round_table (some (9/10)) }

/-- Verdict the mock aggregator returns on the `cfgC1` deadlock. -/
def c1verdict : Verdict :=
  { content := "MINORITY REPORT: The Council is deadlocked.",
    confidence_score := 1/10,
    alternatives :=
      [{ label := "Option A", content := "Position of the even-indexed proposers",
         supporters := ["p1-LonePersona"] },
       { label := "Option B", content := "Position of the odd-indexed proposers",
         supporters := [] }] }

/-- Prefix test on strings by character lists (kernel-computable stand-in
for `str.startswith`). -/
def startsWithStr (pre s : String) : Bool := s.data.take pre.data.length == pre.data

/-- Failure-free test proposer for witness scenarios. -/
def wProposer : PureProposer :=
  { propose := fun q pe => { proposer_id := "w-" ++ pe.name, content := q, confidence := 1 },
    critique_proposal := fun t pe =>
      { reviewer_id := pe.name, target_proposer_id := t.proposer_id, content := "c",
        flaws_identified := [], agreement_score := 1/2 },
    revise_proposal := fun o _ _ => o }

/-- Test persona for witness scenarios. -/
def wPersona (nm : String) : Persona := { name := nm, system_prompt := "sys" }

/-- Test proposal for witness scenarios. -/
def wOut (nm : String) : ProposerOutput :=
  { proposer_id := "w-" ++ nm, content := "q", confidence := 1 }

/-- Two-proposer speaker with a dissenter pinned at entropy 1. -/
def cfgW3 : ChamberSpeaker String :=
  { proposers := [wProposer, wProposer].map Proposer.ofPure,
    personas := [wPersona "A", wPersona "B"],
    dissenter := fun _ => Except.ok 1,
    aggregate := MockAggregator.do_aggregate {},
    entropy_threshold := 1/10, max_rounds := 3 }

/-- The initial proposals failure-free proposers produce. -/
def propose_batch (pps : List PureProposer) (personas : List Persona) (q : String) :
    List ProposerOutput :=
  (pps.zip personas).map (fun pp => pp.1.propose q pp.2)

/-- Test double whose `critique_proposal` raises `e` while the other two
operations behave like the given failure-free proposer (the shape the
repository's tests build with mock overrides). -/
def critiqueFailProposer {E : Type} (p : PureProposer) (e : E) : Proposer E :=
  { propose := fun q pe => Except.ok (p.propose q pe),
    critique_proposal := fun _ _ => Except.error e,
    revise_proposal := fun o cs pe => Except.ok (p.revise_proposal o cs pe) }

/-- Test double whose `revise_proposal` raises `e` while the other two
operations behave like the given failure-free proposer. -/
def reviseFailProposer {E : Type} (p : PureProposer) (e : E) : Proposer E :=
  { propose := fun q pe => Except.ok (p.propose q pe),
    critique_proposal := fun t pe => Except.ok (p.critique_proposal t pe),
    revise_proposal := fun _ _ _ => Except.error e }

/-- `SimpleBudgetManager.check_budget` adapted to a string-error speaker
(the orchestrator surfaces the budget error like any collaborator
error). -/
def budgetAdapter (max_budget : Int) : Int → Int → Except String Int :=
  fun n r =>
    match check_budget max_budget n r with
    | Except.ok v => Except.ok v
    | Except.error _ => Except.error "BudgetExceededError"

/-- One-proposer speaker whose aggregator reports two alternatives that
share the label "X" with different supporter sets. -/
def cfgC2 : ChamberSpeaker String :=
  { proposers := [Proposer.ofPure wProposer],
    personas := [wPersona "A"],
    dissenter := fun _ => Except.ok 0,
    aggregate := fun _ _ _ => Except.ok
      { content := "split", confidence_score := 1/10,
        alternatives := [{ label := "X", content := "c1", supporters := ["a"] },
                         { label := "X", content := "c2", supporters := ["b", "c"] }] },
    entropy_threshold := 1/10, max_rounds := 3 }

/-- The verdict the `cfgC2` aggregator returns. -/
def vC2 : Verdict :=
  { content := "split", confidence_score := 1/10,
    alternatives := [{ label := "X", content := "c1", supporters := ["a"] },
                     { label := "X", content := "c2", supporters := ["b", "c"] }] }

-- ===================== THEOREMS =====================

theorem exceptBind_ok {E α β : Type} (a : α) (f : α → Except E β) :
    (Except.ok a >>= f) = f a := rfl

theorem exceptBind_error {E α β : Type} (e : E) (f : α → Except E β) :
    ((Except.error e : Except E α) >>= f) = Except.error e := rfl

/-- Loop exit on convergence: entropy at or below the threshold stops the
loop at once with `is_deadlock = false`, recording only the entropy. -/
theorem resolveLoop_converge {E : Type} (cfg : ChamberSpeaker E) (mr : Int) (s : LoopState)
    (e : Rat) (h1 : cfg.dissenter s.proposals = Except.ok e)
    (h2 : e ≤ cfg.entropy_threshold) :
    resolveLoop cfg mr s =
      Except.ok ({ s with trace := { s.trace with entropy_score := some e } }, false) := by
  rw [resolveLoop, h1]
  simp only [exceptBind_ok]
  rw [if_pos h2]

/-- Loop exit on exhaustion: entropy above the threshold with
`current_round >= current_max_rounds` stops the loop at once with
`is_deadlock = true`, recording only the entropy. -/
theorem resolveLoop_exhaust {E : Type} (cfg : ChamberSpeaker E) (mr : Int) (s : LoopState)
    (e : Rat) (h1 : cfg.dissenter s.proposals = Except.ok e)
    (h2 : ¬ e ≤ cfg.entropy_threshold) (h3 : s.current_round ≥ mr) :
    resolveLoop cfg mr s =
      Except.ok ({ s with trace := { s.trace with entropy_score := some e } }, true) := by
  rw [resolveLoop, h1]
  simp only [exceptBind_ok]
  rw [if_neg h2, if_pos h3]

/-- One completed debate round: entropy above threshold and rounds left,
with both gathers succeeding, turns the loop into the loop on the revised
state (topology flipped to ROUND-TABLE, critiques then revisions appended
to the trace, round incremented). -/
theorem resolveLoop_step {E : Type} (cfg : ChamberSpeaker E) (mr : Int) (s : LoopState)
    (e : Rat) (cs : List Critique) (ps : List ProposerOutput)
    (h1 : cfg.dissenter s.proposals = Except.ok e)
    (h2 : ¬ e ≤ cfg.entropy_threshold) (h3 : ¬ s.current_round ≥ mr)
    (h4 : gather (critique_tasks cfg.proposers cfg.personas s.proposals) = Except.ok cs)
    (h5 : gather (revision_tasks cfg.proposers cfg.personas s.proposals cs) = Except.ok ps) :
    resolveLoop cfg mr s =
      resolveLoop cfg mr
        { proposals := ps, critiques := cs, current_round := s.current_round + 1,
          trace := (ps.zip cfg.personas).foldl
            (fun t pp => t.log_interaction pp.2.name
              ("revise_round_" ++ toString s.current_round) pp.1.content)
            (cs.foldl
              (fun t c => t.log_interaction c.reviewer_id
                ("critique_round_" ++ toString s.current_round) c.content)
              { s.trace with entropy_score := some e,
                             topology := TopologyType.round_table }) } := by
  conv_lhs => rw [resolveLoop]
  rw [h1]
  simp only [exceptBind_ok]
  rw [if_neg h2, if_neg h3, h4]
  simp only [exceptBind_ok]
  rw [h5]
  simp only [exceptBind_ok]

/-- The loop aborts with the dissenter error. -/
theorem resolveLoop_dissenter_error {E : Type} (cfg : ChamberSpeaker E) (mr : Int)
    (s : LoopState) (e : E) (h : cfg.dissenter s.proposals = Except.error e) :
    resolveLoop cfg mr s = Except.error e := by
  rw [resolveLoop, h]
  rfl

/-- Folding `log_interaction` only appends to `transcripts`. -/
theorem foldl_log_eq {α : Type} (a b c : α → String) (l : List α) (t : CouncilTrace) :
    l.foldl (fun t x => t.log_interaction (a x) (b x) (c x)) t
      = { t with transcripts := t.transcripts
            ++ l.map (fun x => { actor := a x, action := b x, content := c x }) } := by
  induction l generalizing t with
  | nil => simp
  | cons x xs ih =>
    simp only [List.foldl_cons, List.map_cons]
    rw [ih]
    simp [CouncilTrace.log_interaction]

/-- Specialization of `foldl_log_eq` to the proposal-logging fold. -/
theorem foldl_log_propose (l : List (ProposerOutput × Persona)) (t : CouncilTrace) :
    l.foldl (fun t pp => t.log_interaction pp.2.name "propose" pp.1.content) t
      = { t with transcripts := t.transcripts
            ++ l.map (fun pp => { actor := pp.2.name, action := "propose", content := pp.1.content }) } :=
  foldl_log_eq (fun pp => pp.2.name) (fun _ => "propose") (fun pp => pp.1.content) l t

/-- Specialization of `foldl_log_eq` to the critique-logging fold. -/
theorem foldl_log_critique (r : Int) (l : List Critique) (t : CouncilTrace) :
    l.foldl (fun t c => t.log_interaction c.reviewer_id
        ("critique_round_" ++ toString r) c.content) t
      = { t with transcripts := t.transcripts
            ++ l.map (fun c => { actor := c.reviewer_id,
                                 action := "critique_round_" ++ toString r,
                                 content := c.content }) } :=
  foldl_log_eq Critique.reviewer_id (fun _ => "critique_round_" ++ toString r)
    Critique.content l t

/-- Specialization of `foldl_log_eq` to the revision-logging fold. -/
theorem foldl_log_revise (r : Int) (l : List (ProposerOutput × Persona)) (t : CouncilTrace) :
    l.foldl (fun t pp => t.log_interaction pp.2.name
        ("revise_round_" ++ toString r) pp.1.content) t
      = { t with transcripts := t.transcripts
            ++ l.map (fun pp => { actor := pp.2.name,
                                  action := "revise_round_" ++ toString r,
                                  content := pp.1.content }) } :=
  foldl_log_eq (fun pp => pp.2.name) (fun _ => "revise_round_" ++ toString r)
    (fun pp => pp.1.content) l t

/-- `gather` over all-succeeding tasks returns all results, in task order. -/
theorem gather_map_ok {E α β : Type} (f : β → α) (l : List β) :
    gather (l.map (fun x => (Except.ok (f x) : Except E α))) = Except.ok (l.map f) := by
  induction l with
  | nil => rfl
  | cons x xs ih =>
    simp only [List.map_cons, gather, ih]
    rfl

/-- `gather` over a batch whose first failure is `e` aborts with `e`
(fail-fast; the later tasks contribute nothing). -/
theorem gather_first_error {E α β : Type} (f : β → α) (l1 : List β) (e : E)
    (rest : List (Except E α)) :
    gather ((l1.map (fun x => (Except.ok (f x) : Except E α))) ++ Except.error e :: rest)
      = Except.error e := by
  induction l1 with
  | nil => rfl
  | cons x xs ih =>
    simp only [List.map_cons, List.cons_append, gather, List.append_eq, ih]
    rfl

theorem critique_tasks_ofPure {E : Type} (pps : List PureProposer) (personas : List Persona)
    (proposals : List ProposerOutput) :
    critique_tasks (E := E) (pps.map Proposer.ofPure) personas proposals
      = (critique_batch pps personas proposals).map Except.ok := by
  simp only [critique_tasks, critique_batch, List.zip_map_left, List.enum_map,
    List.flatMap_map, List.map_flatMap, List.map_filterMap, List.filterMap_map]
  apply List.flatMap_congr
  intro ti _
  apply List.filterMap_congr
  intro cj _
  by_cases h : ti.1 = cj.1 <;> simp [h, Proposer.ofPure]

theorem revision_tasks_ofPure {E : Type} (pps : List PureProposer) (personas : List Persona)
    (proposals : List ProposerOutput) (critiques : List Critique) :
    revision_tasks (E := E) (pps.map Proposer.ofPure) personas proposals critiques
      = (revision_batch pps personas proposals critiques).map Except.ok := by
  simp only [revision_tasks, revision_batch, List.zip_map_left, List.map_map]
  apply List.map_congr_left
  intro t _
  rfl

theorem filterMap_if_enumFrom_length {α β : Type} (g : Nat × α → β) (i : Nat) :
    ∀ (l : List α) (k : Nat),
    ((l.enumFrom k).filterMap
        (fun cj => if i = cj.1 then none else some (g cj))).length
      = if k ≤ i ∧ i < k + l.length then l.length - 1 else l.length := by
  intro l
  induction l with
  | nil => intro k; simp
  | cons x xs ih =>
    intro k
    simp only [List.enumFrom_cons, List.filterMap_cons]
    by_cases h : i = k
    · rw [if_pos h]
      rw [ih (k + 1)]
      simp only [List.length_cons]
      split_ifs <;> omega
    · rw [if_neg h]
      simp only [List.length_cons, ih (k + 1)]
      split_ifs <;> omega

theorem critique_batch_length (pps : List PureProposer) (personas : List Persona)
    (proposals : List ProposerOutput) (n : Nat)
    (h1 : pps.length = n) (h2 : personas.length = n) (h3 : proposals.length = n) :
    (critique_batch pps personas proposals).length = n * (n - 1) := by
  unfold critique_batch
  rw [List.length_flatMap]
  have hzip1 : (pps.zip proposals).length = n := by
    rw [List.length_zip, h1, h3]; omega
  have hzip2 : (pps.zip personas).length = n := by
    rw [List.length_zip, h1, h2]; omega
  have hmap : (List.map (List.length ∘ fun ti =>
      ((pps.zip personas).enum).filterMap (fun cj =>
        if ti.1 = cj.1 then none
        else some (cj.2.1.critique_proposal ti.2.2 cj.2.2)))
      ((pps.zip proposals).enum))
      = List.map (fun _ => n - 1) ((pps.zip proposals).enum) := by
    apply List.map_congr_left
    intro ti hti
    have hidx : ti.1 < n := by
      have := List.fst_lt_of_mem_enum hti
      omega
    simp only [Function.comp_apply]
    rw [show ((pps.zip personas).enum) = ((pps.zip personas).enumFrom 0) from rfl]
    rw [filterMap_if_enumFrom_length]
    rw [hzip2]
    rw [if_pos ⟨Nat.zero_le _, by omega⟩]
  rw [hmap, List.map_const', List.sum_replicate, smul_eq_mul]
  rw [List.enum_length, hzip1]

theorem revision_batch_length (pps : List PureProposer) (personas : List Persona)
    (proposals : List ProposerOutput) (critiques : List Critique) (n : Nat)
    (h1 : pps.length = n) (h2 : personas.length = n) (h3 : proposals.length = n) :
    (revision_batch pps personas proposals critiques).length = n := by
  simp [revision_batch, List.length_zip, h1, h2, h3]

/-- Decomposition of a successful `resolve_query` run into its three
phases. -/
theorem resolve_query_eq {E : Type} (cfg : ChamberSpeaker E) (sid q : String)
    (mro : Option Int) (mr : Int)
    (hmr : (match mro with | some m => m | none => cfg.max_rounds) = mr)
    (proposals : List ProposerOutput)
    (h1 : gather ((cfg.proposers.zip cfg.personas).map (fun pp => pp.1.propose q pp.2))
            = Except.ok proposals)
    (final : LoopState) (dl : Bool)
    (h2 : resolveLoop cfg mr (initialLoopState cfg sid proposals) = Except.ok (final, dl))
    (v : Verdict) (h3 : cfg.aggregate final.proposals final.critiques dl = Except.ok v) :
    resolve_query cfg sid q mro = Except.ok (v, finalizeTrace cfg final v) := by
  simp only [resolve_query, hmr, h1, exceptBind_ok]
  rw [show initialLoopState cfg sid proposals
      = { proposals := proposals, critiques := [], current_round := 1,
          trace := (proposals.zip cfg.personas).foldl
            (fun t pp => t.log_interaction pp.2.name "propose" pp.1.content)
            { session_id := sid, roster := cfg.personas.map Persona.name,
              topology := TopologyType.star } } from rfl] at h2
  rw [h2]
  simp only [exceptBind_ok, h3, finalizeTrace]

/-- A failed proposal batch aborts `resolve_query` with the same error. -/
theorem resolve_query_propose_error {E : Type} (cfg : ChamberSpeaker E) (sid q : String)
    (mro : Option Int) (e : E)
    (h1 : gather ((cfg.proposers.zip cfg.personas).map (fun pp => pp.1.propose q pp.2))
            = Except.error e) :
    resolve_query cfg sid q mro = Except.error e := by
  simp only [resolve_query, h1, exceptBind_error]

/-- A loop failure (dissenter, critique or revision error) aborts
`resolve_query` with the same error. -/
theorem resolve_query_loop_error {E : Type} (cfg : ChamberSpeaker E) (sid q : String)
    (mro : Option Int) (mr : Int)
    (hmr : (match mro with | some m => m | none => cfg.max_rounds) = mr)
    (proposals : List ProposerOutput)
    (h1 : gather ((cfg.proposers.zip cfg.personas).map (fun pp => pp.1.propose q pp.2))
            = Except.ok proposals)
    (e : E) (h2 : resolveLoop cfg mr (initialLoopState cfg sid proposals) = Except.error e) :
    resolve_query cfg sid q mro = Except.error e := by
  simp only [resolve_query, hmr, h1, exceptBind_ok]
  rw [show initialLoopState cfg sid proposals
      = { proposals := proposals, critiques := [], current_round := 1,
          trace := (proposals.zip cfg.personas).foldl
            (fun t pp => t.log_interaction pp.2.name "propose" pp.1.content)
            { session_id := sid, roster := cfg.personas.map Persona.name,
              topology := TopologyType.star } } from rfl] at h2
  rw [h2]
  rfl

/-- A failed aggregation aborts `resolve_query` with the same error. -/
theorem resolve_query_aggregate_error {E : Type} (cfg : ChamberSpeaker E) (sid q : String)
    (mro : Option Int) (mr : Int)
    (hmr : (match mro with | some m => m | none => cfg.max_rounds) = mr)
    (proposals : List ProposerOutput)
    (h1 : gather ((cfg.proposers.zip cfg.personas).map (fun pp => pp.1.propose q pp.2))
            = Except.ok proposals)
    (final : LoopState) (dl : Bool)
    (h2 : resolveLoop cfg mr (initialLoopState cfg sid proposals) = Except.ok (final, dl))
    (e : E) (h3 : cfg.aggregate final.proposals final.critiques dl = Except.error e) :
    resolve_query cfg sid q mro = Except.error e := by
  simp only [resolve_query, hmr, h1, exceptBind_ok]
  rw [show initialLoopState cfg sid proposals
      = { proposals := proposals, critiques := [], current_round := 1,
          trace := (proposals.zip cfg.personas).foldl
            (fun t pp => t.log_interaction pp.2.name "propose" pp.1.content)
            { session_id := sid, roster := cfg.personas.map Persona.name,
              topology := TopologyType.star } } from rfl] at h2
  rw [h2]
  simp only [exceptBind_ok, h3, exceptBind_error]

theorem gather_ok_list {E α : Type} (l : List α) :
    gather (l.map (Except.ok : α → Except E α)) = Except.ok l := by
  induction l with
  | nil => rfl
  | cons x xs ih =>
    simp only [List.map_cons, gather, ih]
    rfl

/-- Constant entropy above the threshold drives the loop to deadlock:
starting `d = (mr - current_round).toNat` rounds away from exhaustion
with failure-free proposers, the loop performs exactly `d` debate rounds
(each appending `n*(n-1)` critique entries and `n` revise entries),
finishes at `current_round = mr`, and exits with `is_deadlock = true`. -/
theorem resolveLoop_const_high_entropy {E : Type} (cfg : ChamberSpeaker E)
    (pps : List PureProposer) (hp : cfg.proposers = pps.map Proposer.ofPure)
    (e : Rat) (hd : cfg.dissenter = fun _ => Except.ok e)
    (he : ¬ e ≤ cfg.entropy_threshold)
    (n : Nat) (hn1 : pps.length = n) (hn2 : cfg.personas.length = n) (mr : Int) :
    ∀ (d : Nat) (s : LoopState), (mr - s.current_round).toNat = d →
      s.current_round ≤ mr → s.proposals.length = n →
      ∃ final : LoopState,
        resolveLoop cfg mr s = Except.ok (final, true) ∧
        final.current_round = mr ∧
        final.proposals.length = n ∧
        final.trace.entropy_score = some e ∧
        final.trace.transcripts.length
          = s.trace.transcripts.length + d * (n * (n - 1) + n) ∧
        (d = 0 → final.trace.topology = s.trace.topology) ∧
        (0 < d → final.trace.topology = TopologyType.round_table) := by
  intro d
  induction d with
  | zero =>
    intro s hd0 hle hlen
    have hge : s.current_round ≥ mr := by omega
    refine ⟨{ s with trace := { s.trace with entropy_score := some e } },
      resolveLoop_exhaust cfg mr s e (by rw [hd]) he hge,
      by dsimp only; omega, hlen, rfl, by dsimp only; omega, fun _ => rfl, by omega⟩
  | succ d ih =>
    intro s hd1 hle hlen
    have hlt : ¬ s.current_round ≥ mr := by omega
    have hcs : gather (critique_tasks cfg.proposers cfg.personas s.proposals)
        = Except.ok (critique_batch pps cfg.personas s.proposals) := by
      rw [hp, critique_tasks_ofPure]
      exact gather_ok_list _
    have hps : gather (revision_tasks cfg.proposers cfg.personas s.proposals
          (critique_batch pps cfg.personas s.proposals))
        = Except.ok (revision_batch pps cfg.personas s.proposals
          (critique_batch pps cfg.personas s.proposals)) := by
      rw [hp, revision_tasks_ofPure]
      exact gather_ok_list _
    have hstep := resolveLoop_step cfg mr s e
      (critique_batch pps cfg.personas s.proposals)
      (revision_batch pps cfg.personas s.proposals
        (critique_batch pps cfg.personas s.proposals))
      (by rw [hd]) he hlt hcs hps
    set cs := critique_batch pps cfg.personas s.proposals with hcs_def
    set ps := revision_batch pps cfg.personas s.proposals cs with hps_def
    have hlen_cs : cs.length = n * (n - 1) :=
      critique_batch_length pps cfg.personas s.proposals n hn1 hn2 hlen
    have hlen_ps : ps.length = n :=
      revision_batch_length pps cfg.personas s.proposals cs n hn1 hn2 hlen
    obtain ⟨final, hloop, hround, hplen, hent, htrans, htopo0, htopo⟩ :=
      ih { proposals := ps, critiques := cs, current_round := s.current_round + 1,
           trace := (ps.zip cfg.personas).foldl
             (fun t pp => t.log_interaction pp.2.name
               ("revise_round_" ++ toString s.current_round) pp.1.content)
             (cs.foldl
               (fun t c => t.log_interaction c.reviewer_id
                 ("critique_round_" ++ toString s.current_round) c.content)
               { s.trace with entropy_score := some e,
                              topology := TopologyType.round_table }) }
        (by dsimp only; omega) (by dsimp only; omega) hlen_ps
    refine ⟨final, ?_, hround, hplen, hent, ?_, by omega, ?_⟩
    · rw [hstep]; exact hloop
    · rw [htrans]
      simp only [foldl_log_critique, foldl_log_revise, List.length_append,
        List.length_map]
      rw [List.length_zip, hlen_ps, hn2, hlen_cs]
      simp only [min_self]
      ring
    · intro _
      rcases Nat.eq_zero_or_pos d with hd0 | hdpos
      · rw [htopo0 hd0]
        simp [foldl_log_critique, foldl_log_revise]
      · exact htopo hdpos

/-- The `cfgC1` loop runs two identity debate rounds and exhausts at
round 3 with the configured entropy recorded. -/
theorem c1_loop_run : resolveLoop cfgC1 3 (initialLoopState cfgC1 "sid" [c1out])
    = Except.ok (c1final, true) := by
  have hthr : ¬ (9/10 : Rat) ≤ cfgC1.entropy_threshold := by norm_num [cfgC1]
  have h3fin : resolveLoop cfgC1 3
      { proposals := [c1out], critiques := [], current_round := 3,
        trace := c1trace [c1entry "propose", c1entry "revise_round_1", c1entry "revise_round_2"]
          TopologyType.round_table (some (9/10)) }
      = Except.ok (c1final, true) :=
    resolveLoop_exhaust cfgC1 3 _ (9/10) rfl hthr (by decide)
  have h2fin : resolveLoop cfgC1 3
      { proposals := [c1out], critiques := [], current_round := 2,
        trace := c1trace [c1entry "propose", c1entry "revise_round_1"]
          TopologyType.round_table (some (9/10)) }
      = Except.ok (c1final, true) := by
    rw [resolveLoop_step cfgC1 3
      { proposals := [c1out], critiques := [], current_round := 2,
        trace := c1trace [c1entry "propose", c1entry "revise_round_1"]
          TopologyType.round_table (some (9/10)) }
      (9/10) [] [c1out] rfl hthr (by decide) rfl rfl]
    exact h3fin
  rw [resolveLoop_step cfgC1 3 (initialLoopState cfgC1 "sid" [c1out])
      (9/10) [] [c1out] rfl hthr (by decide) rfl rfl]
  exact h2fin

/-- C1: On the source code, a lone-proposer session with a dissenter fixed
at entropy 0.9 and threshold 0.5 does NOT record entropy 0.0 with STAR
topology: `MockDissenter.calculate_entropy` returns its configured value
for any number of proposals and `resolve_query` records it as is, enters
the debate path (ROUND-TABLE topology) and deadlocks after the default
three checks.  Zero critique entries are logged (the only part of the
claim the code meets) and the final verdict is the two-option deadlock
report.  This contradicts the repository's own test
`test_resolve_query_high_entropy_single_proposer`, which asserts entropy
0.0, STAR topology and round-1 convergence for exactly this input. -/
theorem claim_C1_single_proposer_entropy :
    resolve_query cfgC1 "sid" "Am I alone?" none
      = Except.ok (c1verdict, finalizeTrace cfgC1 c1final c1verdict) ∧
    (finalizeTrace cfgC1 c1final c1verdict).entropy_score = some (9/10) ∧
    (finalizeTrace cfgC1 c1final c1verdict).topology = TopologyType.round_table ∧
    ((finalizeTrace cfgC1 c1final c1verdict).transcripts.filter
      (fun en => startsWithStr "critique" en.action)).length = 0 ∧
    c1verdict.alternatives.length = 2 := by
  refine ⟨?_, rfl, rfl, by decide, rfl⟩
  exact resolve_query_eq cfgC1 "sid" "Am I alone?" none 3 rfl [c1out] rfl c1final true
    c1_loop_run c1verdict rfl

/-- C3: the round-loop termination rule.  (1) At each entropy check the
session converges exactly when `entropy <= entropy_threshold` (inclusive);
(2) otherwise it deadlocks exactly when `current_round >= max_rounds`;
(3) with entropy held constantly above the threshold, failure-free
proposers and `max_rounds = k >= 1`, the loop performs exactly `k - 1`
debate rounds (finishing at `current_round = k`, each round appending its
`n*(n-1)` critique and `n` revise entries) and exits as a deadlock; for
`k = 1` zero debate rounds occur. -/
theorem claim_C3_termination_rule (E : Type) :
    (∀ (cfg : ChamberSpeaker E) (mr : Int) (s : LoopState) (e : Rat),
      cfg.dissenter s.proposals = Except.ok e → e ≤ cfg.entropy_threshold →
      resolveLoop cfg mr s
        = Except.ok ({ s with trace := { s.trace with entropy_score := some e } }, false)) ∧
    (∀ (cfg : ChamberSpeaker E) (mr : Int) (s : LoopState) (e : Rat),
      cfg.dissenter s.proposals = Except.ok e → ¬ e ≤ cfg.entropy_threshold →
      s.current_round ≥ mr →
      resolveLoop cfg mr s
        = Except.ok ({ s with trace := { s.trace with entropy_score := some e } }, true)) ∧
    (∀ (cfg : ChamberSpeaker E) (pps : List PureProposer) (e : Rat) (n : Nat) (k : Int)
      (proposals : List ProposerOutput) (sid : String),
      cfg.proposers = pps.map Proposer.ofPure →
      cfg.dissenter = (fun _ => Except.ok e) →
      ¬ e ≤ cfg.entropy_threshold →
      pps.length = n → cfg.personas.length = n → proposals.length = n →
      1 ≤ k →
      ∃ final : LoopState,
        resolveLoop cfg k (initialLoopState cfg sid proposals) = Except.ok (final, true) ∧
        final.current_round = k ∧
        final.trace.transcripts.length
          = (initialLoopState cfg sid proposals).trace.transcripts.length
            + (k - 1).toNat * (n * (n - 1) + n)) := by
  refine ⟨fun cfg mr s e h1 h2 => resolveLoop_converge cfg mr s e h1 h2,
    fun cfg mr s e h1 h2 h3 => resolveLoop_exhaust cfg mr s e h1 h2 h3,
    fun cfg pps e n k proposals sid hp hd he hn1 hn2 hn3 hk => ?_⟩
  obtain ⟨final, hloop, hround, _, _, htrans, _, _⟩ :=
    resolveLoop_const_high_entropy cfg pps hp e hd he n hn1 hn2 k ((k - 1).toNat)
      (initialLoopState cfg sid proposals) (by dsimp only [initialLoopState])
      (by dsimp only [initialLoopState]; omega) hn3
  exact ⟨final, hloop, hround, htrans⟩

/-- Witness for C3: two failure-free proposers, entropy pinned at 1 above
the 0.1 threshold, `max_rounds = 2`: the loop exits as a deadlock at
`current_round = 2` after exactly one debate round (2 propose entries
plus `2*1` critique and `2` revise entries). -/
theorem claim_C3_termination_rule_witness :
    (¬ (1 : Rat) ≤ cfgW3.entropy_threshold) ∧
    (∃ final : LoopState,
      resolveLoop cfgW3 2 (initialLoopState cfgW3 "s" [wOut "A", wOut "B"])
        = Except.ok (final, true) ∧
      final.current_round = 2 ∧
      final.trace.transcripts.length
        = (initialLoopState cfgW3 "s" [wOut "A", wOut "B"]).trace.transcripts.length
          + ((2 : Int) - 1).toNat * (2 * (2 - 1) + 2)) :=
  ⟨by norm_num [cfgW3],
    (claim_C3_termination_rule String).2.2 cfgW3 [wProposer, wProposer] 1 2 2
      [wOut "A", wOut "B"] "s" rfl rfl (by norm_num [cfgW3]) rfl rfl rfl (by decide)⟩

/-- For `max_rounds <= 1` the loop behaves exactly as for `max_rounds = 1`
(the first check either converges or exhausts; `1 >= k` holds for all
`k <= 1`). -/
theorem resolveLoop_le_one {E : Type} (cfg : ChamberSpeaker E) (k : Int) (hk : k ≤ 1)
    (s : LoopState) (hs : s.current_round = 1) :
    resolveLoop cfg k s = resolveLoop cfg 1 s := by
  conv_lhs => rw [resolveLoop]
  conv_rhs => rw [resolveLoop]
  cases he : cfg.dissenter s.proposals with
  | error e => rfl
  | ok e =>
    simp only [exceptBind_ok]
    by_cases h2 : e ≤ cfg.entropy_threshold
    · rw [if_pos h2, if_pos h2]
    · rw [if_neg h2, if_neg h2, if_pos (show s.current_round ≥ k by omega),
        if_pos (show s.current_round ≥ 1 by omega)]

/-- C10: `resolve_query` accepts any integer `max_rounds` override,
including zero and negative values, without validation: for every
`k <= 1` the whole call behaves identically to `max_rounds = 1` (part 1),
and whenever the first entropy check exceeds the threshold it declares a
deadlock at once, with the trace unchanged except for the recorded
entropy -- zero debate rounds, no error (part 2). -/
theorem claim_C10_nonpositive_max_rounds (E : Type) :
    (∀ (cfg : ChamberSpeaker E) (sid q : String) (k : Int), k ≤ 1 →
      resolve_query cfg sid q (some k) = resolve_query cfg sid q (some 1)) ∧
    (∀ (cfg : ChamberSpeaker E) (mr : Int) (s : LoopState) (e : Rat), mr ≤ 1 →
      s.current_round = 1 →
      cfg.dissenter s.proposals = Except.ok e → ¬ e ≤ cfg.entropy_threshold →
      resolveLoop cfg mr s
        = Except.ok ({ s with trace := { s.trace with entropy_score := some e } }, true)) := by
  constructor
  · intro cfg sid q k hk
    simp only [resolve_query]
    cases hg : gather ((cfg.proposers.zip cfg.personas).map (fun pp => pp.1.propose q pp.2)) with
    | error e => rfl
    | ok ps =>
      simp only [exceptBind_ok]
      rw [resolveLoop_le_one cfg k hk _ rfl]
  · intro cfg mr s e hmr hs h1 h2
    exact resolveLoop_exhaust cfg mr s e h1 h2 (by omega)

/-- Witness for C10: a `max_rounds = 0` override behaves as the
`max_rounds = 1` session, and a first-check entropy of 1 above the 0.1
threshold deadlocks at once with only the entropy recorded. -/
theorem claim_C10_nonpositive_max_rounds_witness :
    ((0 : Int) ≤ 1 ∧
      resolve_query cfgW3 "s" "q" (some 0) = resolve_query cfgW3 "s" "q" (some 1)) ∧
    (¬ (1 : Rat) ≤ cfgW3.entropy_threshold ∧
      resolveLoop cfgW3 0 (initialLoopState cfgW3 "s" [wOut "A", wOut "B"])
        = Except.ok ({ initialLoopState cfgW3 "s" [wOut "A", wOut "B"] with
            trace := { (initialLoopState cfgW3 "s" [wOut "A", wOut "B"]).trace with
              entropy_score := some 1 } }, true)) :=
  ⟨⟨by decide, (claim_C10_nonpositive_max_rounds String).1 cfgW3 "s" "q" 0 (by decide)⟩,
   ⟨by norm_num [cfgW3],
    (claim_C10_nonpositive_max_rounds String).2 cfgW3 0
      (initialLoopState cfgW3 "s" [wOut "A", wOut "B"]) 1 (by decide) rfl rfl
      (by norm_num [cfgW3])⟩⟩

/-- C6: one completed debate round with n failure-free proposers produces
exactly `n*(n-1)` critiques (one per ordered (target, critic) pair,
self-pairs excluded) and exactly `n` revisions, and appends to the trace
first the critique entries tagged `critique_round_r` in target-major,
critic-minor pair order, then the revise entries tagged `revise_round_r`
in roster order.  The batches are deterministic functions of the inputs
(`critique_batch`, `revision_batch`) and are logged only after the whole
gathered batch is available, so completion order of the concurrent tasks
cannot influence the transcript. -/
theorem claim_C6_debate_round_order (E : Type) :
    ∀ (cfg : ChamberSpeaker E) (pps : List PureProposer) (n : Nat) (mr : Int)
      (s : LoopState) (e : Rat),
    cfg.proposers = pps.map Proposer.ofPure →
    cfg.dissenter s.proposals = Except.ok e →
    ¬ e ≤ cfg.entropy_threshold →
    ¬ s.current_round ≥ mr →
    pps.length = n → cfg.personas.length = n → s.proposals.length = n →
    (critique_batch pps cfg.personas s.proposals).length = n * (n - 1) ∧
    (revision_batch pps cfg.personas s.proposals
      (critique_batch pps cfg.personas s.proposals)).length = n ∧
    resolveLoop cfg mr s = resolveLoop cfg mr
      { proposals := revision_batch pps cfg.personas s.proposals
          (critique_batch pps cfg.personas s.proposals),
        critiques := critique_batch pps cfg.personas s.proposals,
        current_round := s.current_round + 1,
        trace := { s.trace with
          entropy_score := some e,
          topology := TopologyType.round_table,
          transcripts := s.trace.transcripts
            ++ (critique_batch pps cfg.personas s.proposals).map
              (fun c => { actor := c.reviewer_id,
                          action := "critique_round_" ++ toString s.current_round,
                          content := c.content })
            ++ ((revision_batch pps cfg.personas s.proposals
                  (critique_batch pps cfg.personas s.proposals)).zip cfg.personas).map
              (fun pp => { actor := pp.2.name,
                           action := "revise_round_" ++ toString s.current_round,
                           content := pp.1.content }) } } := by
  intro cfg pps n mr s e hp h1 h2 h3 hn1 hn2 hn3
  refine ⟨critique_batch_length pps cfg.personas s.proposals n hn1 hn2 hn3,
    revision_batch_length pps cfg.personas s.proposals _ n hn1 hn2 hn3, ?_⟩
  have hcs : gather (critique_tasks cfg.proposers cfg.personas s.proposals)
      = Except.ok (critique_batch pps cfg.personas s.proposals) := by
    rw [hp, critique_tasks_ofPure]; exact gather_ok_list _
  have hps : gather (revision_tasks cfg.proposers cfg.personas s.proposals
        (critique_batch pps cfg.personas s.proposals))
      = Except.ok (revision_batch pps cfg.personas s.proposals
        (critique_batch pps cfg.personas s.proposals)) := by
    rw [hp, revision_tasks_ofPure]; exact gather_ok_list _
  rw [resolveLoop_step cfg mr s e _ _ h1 h2 h3 hcs hps]
  rw [foldl_log_critique, foldl_log_revise]

/-- Witness for C6: with 2 failure-free proposers, one debate round
produces exactly 2*(2-1) = 2 critiques and 2 revisions. -/
theorem claim_C6_debate_round_order_witness :
    (¬ (1 : Rat) ≤ cfgW3.entropy_threshold) ∧
    (critique_batch [wProposer, wProposer] cfgW3.personas [wOut "A", wOut "B"]).length = 2 ∧
    (revision_batch [wProposer, wProposer] cfgW3.personas [wOut "A", wOut "B"]
      (critique_batch [wProposer, wProposer] cfgW3.personas [wOut "A", wOut "B"])).length = 2 :=
  ⟨by norm_num [cfgW3],
   (claim_C6_debate_round_order String cfgW3 [wProposer, wProposer] 2 3
      (initialLoopState cfgW3 "s" [wOut "A", wOut "B"]) 1 rfl rfl
      (by norm_num [cfgW3]) (by decide) rfl rfl rfl).1,
   (claim_C6_debate_round_order String cfgW3 [wProposer, wProposer] 2 3
      (initialLoopState cfgW3 "s" [wOut "A", wOut "B"]) 1 rfl rfl
      (by norm_num [cfgW3]) (by decide) rfl rfl rfl).2.1⟩

theorem gather_ok_append_error {E α : Type} (l1 : List α) (e : E) (rest : List (Except E α)) :
    gather (l1.map Except.ok ++ Except.error e :: rest) = Except.error e := by
  induction l1 with
  | nil => rfl
  | cons x xs ih =>
    simp only [List.map_cons, List.cons_append, gather, List.append_eq, ih]
    rfl

/-- The proposal fan-out of failure-free proposers succeeds with the pure
batch. -/
theorem propose_tasks_ofPure {E : Type} (pps : List PureProposer) (personas : List Persona)
    (q : String) :
    ((pps.map (Proposer.ofPure (E := E))).zip personas).map (fun pp => pp.1.propose q pp.2)
      = (propose_batch pps personas q).map Except.ok := by
  simp only [propose_batch, List.zip_map_left, List.map_map]
  apply List.map_congr_left
  intro t _
  rfl

/-- The loop aborts with the error of a failed critique batch. -/
theorem resolveLoop_critique_error {E : Type} (cfg : ChamberSpeaker E) (mr : Int)
    (s : LoopState) (e : Rat) (err : E)
    (h1 : cfg.dissenter s.proposals = Except.ok e)
    (h2 : ¬ e ≤ cfg.entropy_threshold) (h3 : ¬ s.current_round ≥ mr)
    (h4 : gather (critique_tasks cfg.proposers cfg.personas s.proposals) = Except.error err) :
    resolveLoop cfg mr s = Except.error err := by
  rw [resolveLoop, h1]
  simp only [exceptBind_ok]
  rw [if_neg h2, if_neg h3, h4]
  rfl

/-- The loop aborts with the error of a failed revision batch. -/
theorem resolveLoop_revise_error {E : Type} (cfg : ChamberSpeaker E) (mr : Int)
    (s : LoopState) (e : Rat) (cs : List Critique) (err : E)
    (h1 : cfg.dissenter s.proposals = Except.ok e)
    (h2 : ¬ e ≤ cfg.entropy_threshold) (h3 : ¬ s.current_round ≥ mr)
    (h4 : gather (critique_tasks cfg.proposers cfg.personas s.proposals) = Except.ok cs)
    (h5 : gather (revision_tasks cfg.proposers cfg.personas s.proposals cs)
            = Except.error err) :
    resolveLoop cfg mr s = Except.error err := by
  rw [resolveLoop, h1]
  simp only [exceptBind_ok]
  rw [if_neg h2, if_neg h3, h4]
  simp only [exceptBind_ok]
  rw [h5]
  rfl

/-- C9: backend failures are fail-fast.  (1) A proposer whose `propose`
raises aborts `resolve_query` with that same error even when every
preceding proposer in the batch succeeded; (2) a raising
`calculate_entropy` aborts the call with its error; (3) a raising
`critique_proposal` inside the critique fan-out aborts the call with its
error; (4) a raising `revise_proposal` inside the revision fan-out aborts
the call with its error; (5) a raising `aggregate` aborts the call with
its error.  In every case the result is exactly `Except.error e`: no
retry, no suppression, and no session result assembled from the
remaining tasks. -/
theorem claim_C9_fail_fast (E : Type) :
    (∀ (sid q : String) (mro : Option Int) (e : E) (pps : List PureProposer)
       (pas : List Persona) (pa : Persona)
       (diss : List ProposerOutput → Except E Rat)
       (agg : List ProposerOutput → List Critique → Bool → Except E Verdict)
       (thr : Rat) (mr : Int), pps.length = pas.length →
      resolve_query
        { proposers := pps.map Proposer.ofPure
            ++ [Proposer.ofMock { failure_exception := some e }],
          personas := pas ++ [pa], dissenter := diss, aggregate := agg,
          entropy_threshold := thr, max_rounds := mr } sid q mro = Except.error e) ∧
    (∀ (sid q : String) (mro : Option Int) (e : E) (pps : List PureProposer)
       (pas : List Persona)
       (agg : List ProposerOutput → List Critique → Bool → Except E Verdict)
       (thr : Rat) (mr : Int),
      resolve_query
        { proposers := pps.map Proposer.ofPure, personas := pas,
          dissenter := fun _ => Except.error e, aggregate := agg,
          entropy_threshold := thr, max_rounds := mr } sid q mro = Except.error e) ∧
    (∀ (sid q : String) (e : E) (ehigh thr : Rat) (p1 p2 : PureProposer)
       (pa1 pa2 : Persona)
       (agg : List ProposerOutput → List Critique → Bool → Except E Verdict)
       (mr : Int), ¬ ehigh ≤ thr → ¬ (1 : Int) ≥ mr →
      resolve_query
        { proposers := [Proposer.ofPure p1, critiqueFailProposer p2 e],
          personas := [pa1, pa2], dissenter := fun _ => Except.ok ehigh,
          aggregate := agg, entropy_threshold := thr, max_rounds := mr }
        sid q none = Except.error e) ∧
    (∀ (sid q : String) (e : E) (ehigh thr : Rat) (p1 p2 : PureProposer)
       (pa1 pa2 : Persona)
       (agg : List ProposerOutput → List Critique → Bool → Except E Verdict)
       (mr : Int), ¬ ehigh ≤ thr → ¬ (1 : Int) ≥ mr →
      resolve_query
        { proposers := [reviseFailProposer p1 e, Proposer.ofPure p2],
          personas := [pa1, pa2], dissenter := fun _ => Except.ok ehigh,
          aggregate := agg, entropy_threshold := thr, max_rounds := mr }
        sid q none = Except.error e) ∧
    (∀ (sid q : String) (mro : Option Int) (e : E) (elow thr : Rat)
       (pps : List PureProposer) (pas : List Persona) (mr : Int), elow ≤ thr →
      resolve_query
        { proposers := pps.map Proposer.ofPure, personas := pas,
          dissenter := fun _ => Except.ok elow,
          aggregate := fun _ _ _ => Except.error e,
          entropy_threshold := thr, max_rounds := mr } sid q mro = Except.error e) := by
  refine ⟨?_, ?_, ?_, ?_, ?_⟩
  · intro sid q mro e pps pas pa diss agg thr mr hlen
    apply resolve_query_propose_error
    have hz : ((pps.map (Proposer.ofPure (E := E))
          ++ [Proposer.ofMock { failure_exception := some e }]).zip (pas ++ [pa]))
        = (pps.map Proposer.ofPure).zip pas
          ++ [(Proposer.ofMock { failure_exception := some e }, pa)] := by
      rw [List.zip_append (by simp [hlen])]
      rfl
    rw [hz, List.map_append, propose_tasks_ofPure]
    exact gather_ok_append_error _ e _
  · intro sid q mro e pps pas agg thr mr
    refine resolve_query_loop_error _ sid q mro _ rfl (propose_batch pps pas q) ?_ e ?_
    · rw [propose_tasks_ofPure]
      exact gather_ok_list _
    · exact resolveLoop_dissenter_error _ _ _ e rfl
  · intro sid q e ehigh thr p1 p2 pa1 pa2 agg mr hh h1mr
    refine resolve_query_loop_error _ sid q none _ rfl
      [p1.propose q pa1, p2.propose q pa2] ?_ e ?_
    · rfl
    · exact resolveLoop_critique_error _ _ _ ehigh e rfl hh
        (by dsimp only [initialLoopState]; exact h1mr) rfl
  · intro sid q e ehigh thr p1 p2 pa1 pa2 agg mr hh h1mr
    refine resolve_query_loop_error _ sid q none _ rfl
      [p1.propose q pa1, p2.propose q pa2] ?_ e ?_
    · rfl
    · exact resolveLoop_revise_error _ _ _ ehigh
        [p2.critique_proposal (p1.propose q pa1) pa2,
         p1.critique_proposal (p2.propose q pa2) pa1] e rfl hh
        (by dsimp only [initialLoopState]; exact h1mr) rfl rfl
  · intro sid q mro e elow thr pps pas mr hle
    refine resolve_query_aggregate_error
      { proposers := pps.map Proposer.ofPure, personas := pas,
        dissenter := fun _ => Except.ok elow,
        aggregate := fun _ _ _ => Except.error e,
        entropy_threshold := thr, max_rounds := mr }
      sid q mro _ rfl (propose_batch pps pas q) ?_ _ false
      (resolveLoop_converge _ _
        (initialLoopState _ sid (propose_batch pps pas q)) elow rfl hle) e rfl
    rw [propose_tasks_ofPure]
    exact gather_ok_list _

/-- Witness for C9: one healthy proposer followed by one whose `propose`
raises "boom"; the session aborts with exactly that error. -/
theorem claim_C9_fail_fast_witness :
    ([wProposer].length = [wPersona "A"].length) ∧
    resolve_query
      { proposers := [wProposer].map Proposer.ofPure
          ++ [Proposer.ofMock { failure_exception := some "boom" }],
        personas := [wPersona "A"] ++ [wPersona "B"],
        dissenter := fun _ => Except.ok 0,
        aggregate := MockAggregator.do_aggregate {},
        entropy_threshold := 1/10, max_rounds := 3 } "s" "q" none
      = Except.error "boom" :=
  ⟨rfl, (claim_C9_fail_fast String).1 "s" "q" none "boom" [wProposer] [wPersona "A"]
    (wPersona "B") (fun _ => Except.ok 0) (MockAggregator.do_aggregate {}) (1/10) 3 rfl⟩

/-- C4 (spec-modelled): the orchestrator takes an optional budget manager.
(1) With none configured the session is the plain `resolve_query`;
(2) with one configured, a `check_budget` failure aborts the call with
that failure for EVERY proposer configuration -- in particular before any
proposer work can run or fail; (3) a successful `check_budget` makes the
rest of the session run with the returned (possibly downgraded) round
count. -/
theorem claim_C4_budget_wiring (E : Type) :
    (∀ (cfg : ChamberSpeaker E) (sid q : String) (mro : Option Int),
      resolve_query_with_budget cfg none sid q mro = resolve_query cfg sid q mro) ∧
    (∀ (cfg : ChamberSpeaker E) (cb : Int → Int → Except E Int) (sid q : String)
       (mro : Option Int) (e : E),
      cb (cfg.proposers.length : Int)
          (match mro with | some m => m | none => cfg.max_rounds) = Except.error e →
      resolve_query_with_budget cfg (some cb) sid q mro = Except.error e) ∧
    (∀ (cfg : ChamberSpeaker E) (cb : Int → Int → Except E Int) (sid q : String)
       (mro : Option Int) (r : Int),
      cb (cfg.proposers.length : Int)
          (match mro with | some m => m | none => cfg.max_rounds) = Except.ok r →
      resolve_query_with_budget cfg (some cb) sid q mro
        = resolve_query cfg sid q (some r)) := by
  refine ⟨fun cfg sid q mro => rfl, ?_, ?_⟩
  · intro cfg cb sid q mro e h
    simp only [resolve_query_with_budget, h, exceptBind_error]
  · intro cfg cb sid q mro r h
    simp only [resolve_query_with_budget, h, exceptBind_ok]

/-- Witness for C4: with `max_budget = 10` and two proposers, a requested
3 rounds costs 2 + 2*4 = 10 and is permitted unchanged; with
`max_budget = 1` even a single round costs 2 and the call aborts with the
budget error before any proposer runs. -/
theorem claim_C4_budget_wiring_witness :
    (budgetAdapter 10 (cfgW3.proposers.length : Int)
        (match (none : Option Int) with | some m => m | none => cfgW3.max_rounds)
      = Except.ok 3 ∧
     resolve_query_with_budget cfgW3 (some (budgetAdapter 10)) "s" "q" none
      = resolve_query cfgW3 "s" "q" (some 3)) ∧
    (budgetAdapter 1 (cfgW3.proposers.length : Int)
        (match (none : Option Int) with | some m => m | none => cfgW3.max_rounds)
      = Except.error "BudgetExceededError" ∧
     resolve_query_with_budget cfgW3 (some (budgetAdapter 1)) "s" "q" none
      = Except.error "BudgetExceededError") :=
  ⟨⟨rfl,
    (claim_C4_budget_wiring String).2.2 cfgW3 (budgetAdapter 10) "s" "q" none 3 rfl⟩,
   ⟨rfl,
    (claim_C4_budget_wiring String).2.1 cfgW3 (budgetAdapter 1) "s" "q" none
      "BudgetExceededError" rfl⟩⟩

/-- C5 (spec-modelled): the budget cost model and downgrade policy.
`calculate_cost` is `n` for at most one round and
`n + (r - 1) * n^2` otherwise; `check_budget` permits affordable
requests unchanged, downgrades to one round when only that is
affordable, and fails otherwise; any `max_budget <= 0` fails for every
positive proposer count. -/
theorem claim_C5_budget_policy :
    (∀ n r : Int, r ≤ 1 → calculate_cost n r = n) ∧
    (∀ n r : Int, 1 < r → calculate_cost n r = n + (r - 1) * n ^ 2) ∧
    (∀ mb n r : Int, calculate_cost n r ≤ mb → check_budget mb n r = Except.ok r) ∧
    (∀ mb n r : Int, ¬ calculate_cost n r ≤ mb → calculate_cost n 1 ≤ mb →
      check_budget mb n r = Except.ok 1) ∧
    (∀ mb n r : Int, ¬ calculate_cost n r ≤ mb → ¬ calculate_cost n 1 ≤ mb →
      check_budget mb n r = Except.error BudgetExceededError.exceeded) ∧
    (∀ mb n r : Int, mb ≤ 0 → 0 < n →
      check_budget mb n r = Except.error BudgetExceededError.exceeded) := by
  refine ⟨fun n r h => by simp [calculate_cost, h],
    fun n r h => by simp [calculate_cost, show ¬ r ≤ 1 by omega],
    fun mb n r h => by simp [check_budget, h],
    fun mb n r h1 h2 => by simp [check_budget, h1, h2],
    fun mb n r h1 h2 => by simp [check_budget, h1, h2],
    fun mb n r hmb hn => ?_⟩
  have hc1 : calculate_cost n 1 = n := by simp [calculate_cost]
  have hcr : 0 < calculate_cost n r := by
    unfold calculate_cost
    split_ifs with h
    · omega
    · have hnn : (0 : Int) ≤ (r - 1) * n ^ 2 := mul_nonneg (by omega) (sq_nonneg n)
      omega
  have h1 : ¬ calculate_cost n r ≤ mb := by omega
  have h2 : ¬ calculate_cost n 1 ≤ mb := by omega
  simp [check_budget, h1, h2]

/-- Witness for C5: the test-suite scenarios.  Cost of 3 proposers for 3
rounds is 21; budget 50 permits 3 rounds, budget 10 downgrades to 1
round, budget 2 rejects outright; a zero budget rejects 5 proposers. -/
theorem claim_C5_budget_policy_witness :
    (calculate_cost 3 3 ≤ 50 ∧ check_budget 50 3 3 = Except.ok 3) ∧
    (¬ calculate_cost 3 3 ≤ 10 ∧ calculate_cost 3 1 ≤ 10 ∧
      check_budget 10 3 3 = Except.ok 1) ∧
    (¬ calculate_cost 3 1 ≤ 2 ∧
      check_budget 2 3 1 = Except.error BudgetExceededError.exceeded) ∧
    ((0 : Int) ≤ 0 ∧ (0 : Int) < 5 ∧
      check_budget 0 5 2 = Except.error BudgetExceededError.exceeded) :=
  ⟨⟨by decide, claim_C5_budget_policy.2.2.1 50 3 3 (by decide)⟩,
   ⟨by decide, by decide, claim_C5_budget_policy.2.2.2.1 10 3 3 (by decide) (by decide)⟩,
   ⟨by decide, claim_C5_budget_policy.2.2.2.2.1 2 3 1 (by decide) (by decide)⟩,
   ⟨by decide, by decide, claim_C5_budget_policy.2.2.2.2.2 0 5 2 (by decide) (by decide)⟩⟩

/-- C8 (spec-modelled): `revise_proposal` with an empty critique list is
an identity short-circuit that performs no backend call -- it returns the
original object unchanged even when the mock is configured to raise on
every backend call -- and every successful revision preserves the
original `proposer_id`. -/
theorem claim_C8_revise_identity (E : Type) :
    (∀ (m : MockProposer E) (p : ProposerOutput) (pe : Persona),
      m.do_revise p [] pe = Except.ok p) ∧
    (∀ (m : MockProposer E) (p : ProposerOutput) (cs : List Critique) (pe : Persona)
       (v : ProposerOutput),
      m.do_revise p cs pe = Except.ok v → v.proposer_id = p.proposer_id) := by
  constructor
  · intro m p pe
    simp [MockProposer.do_revise]
  · intro m p cs pe v h
    unfold MockProposer.do_revise at h
    split_ifs at h with hcs
    · cases h
      rfl
    · cases hfe : m.failure_exception with
      | some e => rw [hfe] at h; cases h
      | none =>
        rw [hfe] at h
        cases h
        rfl

/-- Witness for C8: a mock configured to raise still returns the original
proposal unchanged on an empty critique list, and a non-empty revision by
a healthy mock keeps the proposer id. -/
theorem claim_C8_revise_identity_witness :
    ((MockProposer.do_revise { failure_exception := some "boom" } (wOut "A") [] (wPersona "A"))
      = Except.ok (wOut "A")) ∧
    ((MockProposer.do_revise ({} : MockProposer String) (wOut "A")
        [{ reviewer_id := "B", target_proposer_id := "w-A", content := "c",
           flaws_identified := [], agreement_score := 1/2 }] (wPersona "A"))
      = Except.ok
        { proposer_id := "w-A",
          content := "Revised: q (Persona: A)", confidence := 9/10 } ∧
     ({ proposer_id := "w-A",
        content := "Revised: q (Persona: A)", confidence := 9/10 } : ProposerOutput).proposer_id
       = (wOut "A").proposer_id) :=
  ⟨(claim_C8_revise_identity String).1 { failure_exception := some "boom" } (wOut "A")
      (wPersona "A"),
   rfl,
   (claim_C8_revise_identity String).2 ({} : MockProposer String) (wOut "A")
      [{ reviewer_id := "B", target_proposer_id := "w-A", content := "c",
         flaws_identified := [], agreement_score := 1/2 }] (wPersona "A")
      { proposer_id := "w-A",
        content := "Revised: q (Persona: A)", confidence := 9/10 } rfl⟩

theorem dictLookup_dictInsert_self (d : List (String × Nat)) (k : String) (v : Nat) :
    dictLookup (dictInsert d k v) k = some v := by
  induction d with
  | nil => simp [dictInsert, dictLookup]
  | cons kv rest ih =>
    obtain ⟨k0, v0⟩ := kv
    by_cases h : k0 = k
    · simp [dictInsert, dictLookup, h]
    · simp [dictInsert, dictLookup, h, ih]

theorem dictLookup_dictInsert_ne (d : List (String × Nat)) (k k0 : String) (v : Nat)
    (h : k ≠ k0) : dictLookup (dictInsert d k v) k0 = dictLookup d k0 := by
  induction d with
  | nil => simp [dictInsert, dictLookup, h]
  | cons kv rest ih =>
    obtain ⟨k1, v1⟩ := kv
    by_cases h1 : k1 = k
    · subst h1
      simp [dictInsert, dictLookup, h]
    · simp only [dictInsert, if_neg h1]
      by_cases h2 : k1 = k0
      · simp [dictLookup, h2]
      · simp [dictLookup, h2, ih]

theorem dictLookup_foldl_not_mem (ps : List (String × Nat)) (k : String)
    (h : k ∉ ps.map Prod.fst) :
    ∀ d : List (String × Nat),
      dictLookup (ps.foldl (fun d kv => dictInsert d kv.1 kv.2) d) k = dictLookup d k := by
  induction ps with
  | nil => intro d; rfl
  | cons kv rest ih =>
    intro d
    simp only [List.map_cons, List.mem_cons] at h
    push_neg at h
    rw [List.foldl_cons, ih h.2, dictLookup_dictInsert_ne _ _ _ _ (Ne.symm h.1)]

/-- Looking up a key in a Python dict comprehension finds the value of the
LAST pair carrying that key. -/
theorem dictLookup_dictOfPairs_last (ps1 ps2 : List (String × Nat)) (k : String) (v : Nat)
    (h : k ∉ ps2.map Prod.fst) :
    dictLookup (dictOfPairs (ps1 ++ (k, v) :: ps2)) k = some v := by
  unfold dictOfPairs
  rw [List.foldl_append, List.foldl_cons, dictLookup_foldl_not_mem ps2 k h,
    dictLookup_dictInsert_self]

/-- C2 (amended): on every `resolve_query` call that reaches aggregation,
if the verdict carries no alternatives the vote tally is
`{Consensus: number of proposers}`; if it carries alternatives, the tally
is the dict comprehension over `(label, distinct-supporter-count)` pairs,
so every option whose label is NOT re-used by a later option maps to the
count of its distinct supporters (on a label collision the last option
with that label wins -- see the counterexample). -/
theorem claim_C2_vote_tally (E : Type) :
    ∀ (cfg : ChamberSpeaker E) (sid q : String) (mro : Option Int) (v : Verdict)
      (t : CouncilTrace),
    resolve_query cfg sid q mro = Except.ok (v, t) →
    (v.alternatives = [] → t.vote_tally = some [("Consensus", cfg.proposers.length)]) ∧
    (∀ alts1 alt alts2, v.alternatives = alts1 ++ alt :: alts2 →
      alt.label ∉ alts2.map VerdictOption.label →
      t.vote_tally = some (dictOfPairs (votePairs v.alternatives)) ∧
      dictLookup (dictOfPairs (votePairs v.alternatives)) alt.label
        = some (distinctCount alt.supporters)) := by
  intro cfg sid q mro v t h
  simp only [resolve_query] at h
  generalize (match mro with | some m => m | none => cfg.max_rounds) = mr at h
  cases hg : gather ((cfg.proposers.zip cfg.personas).map (fun pp => pp.1.propose q pp.2)) with
  | error e => rw [hg] at h; cases h
  | ok ps =>
    rw [hg] at h
    simp only [exceptBind_ok] at h
    cases hl : resolveLoop cfg mr
        { proposals := ps, critiques := [], current_round := 1,
          trace := (ps.zip cfg.personas).foldl
            (fun t pp => t.log_interaction pp.2.name "propose" pp.1.content)
            { session_id := sid, roster := cfg.personas.map Persona.name,
              topology := TopologyType.star } } with
    | error e => rw [hl] at h; cases h
    | ok r =>
      rw [hl] at h
      simp only [exceptBind_ok] at h
      cases ha : cfg.aggregate r.1.proposals r.1.critiques r.2 with
      | error e => rw [ha] at h; cases h
      | ok v0 =>
        rw [ha] at h
        simp only [exceptBind_ok] at h
        obtain ⟨hv, ht⟩ := Prod.mk.injEq _ _ _ _ |>.mp (Except.ok.inj h)
        subst hv
        constructor
        · intro halt
          rw [← ht]
          simp [halt]
        · intro alts1 alt alts2 halt hnot
          have hne : ¬ v0.alternatives.isEmpty := by
            rw [halt]
            simp
          constructor
          · rw [← ht]
            simp [hne]
          · rw [halt, votePairs, List.map_append, List.map_cons]
            refine dictLookup_dictOfPairs_last _ _ _ _ ?_
            simpa [votePairs, List.map_map, Function.comp] using hnot

/-- C2 counterexample: on the `cfgC2` session, whose aggregator returns
two options both labelled "X" (with 1 and 2 distinct supporters), the
vote tally cannot map each option's label to the count of its distinct
supporters: the dict comprehension keeps only the last value for the
duplicated key, so the first option's count (1) is not retrievable. -/
theorem claim_C2_vote_tally_counterexample :
    ¬ (∀ (v : Verdict) (t : CouncilTrace),
        resolve_query cfgC2 "s" "q" none = Except.ok (v, t) →
        ∀ alt ∈ v.alternatives, ∃ d, t.vote_tally = some d ∧
          dictLookup d alt.label = some (distinctCount alt.supporters)) := by
  intro hclaim
  have hconv := resolveLoop_converge cfgC2 3 (initialLoopState cfgC2 "s" [wOut "A"]) 0
    rfl (by norm_num [cfgC2])
  have hrun := resolve_query_eq cfgC2 "s" "q" none 3 rfl [wOut "A"] rfl _ false hconv vC2 rfl
  obtain ⟨d, hd, hlk⟩ := hclaim vC2 _ hrun
    { label := "X", content := "c1", supporters := ["a"] } (by simp [vC2])
  rw [show (finalizeTrace cfgC2
      { (initialLoopState cfgC2 "s" [wOut "A"]) with
        trace := { (initialLoopState cfgC2 "s" [wOut "A"]).trace with
          entropy_score := some 0 } } vC2).vote_tally
    = some [("X", 2)] from rfl] at hd
  cases hd
  exact absurd hlk (by decide)

/-- Witness for C2: on the `cfgC2` run the amended statement yields that
the duplicated label "X" maps to 2, the distinct-supporter count of the
LAST option carrying it. -/
theorem claim_C2_vote_tally_witness :
    (vC2.alternatives
      = [{ label := "X", content := "c1", supporters := ["a"] }]
        ++ { label := "X", content := "c2", supporters := ["b", "c"] } :: [] ∧
     ("X" : String) ∉ ([] : List VerdictOption).map VerdictOption.label) ∧
    dictLookup (dictOfPairs (votePairs vC2.alternatives)) "X"
      = some (distinctCount ["b", "c"]) := by
  have hconv := resolveLoop_converge cfgC2 3 (initialLoopState cfgC2 "s" [wOut "A"]) 0
    rfl (by norm_num [cfgC2])
  have hrun := resolve_query_eq cfgC2 "s" "q" none 3 rfl [wOut "A"] rfl _ false hconv vC2 rfl
  refine ⟨⟨rfl, by simp⟩, ?_⟩
  exact ((claim_C2_vote_tally String cfgC2 "s" "q" none vC2 _ hrun).2
    [{ label := "X", content := "c1", supporters := ["a"] }]
    { label := "X", content := "c2", supporters := ["b", "c"] } [] rfl (by simp)).2

/-- Jaccard similarity is within [0, 1]. -/
theorem calculate_jaccard_similarity_bounds (a b : String) :
    0 ≤ calculate_jaccard_similarity a b ∧ calculate_jaccard_similarity a b ≤ 1 := by
  unfold calculate_jaccard_similarity
  dsimp only
  split_ifs with h1 h2
  · exact ⟨zero_le_one, le_refl 1⟩
  · exact ⟨le_refl 0, zero_le_one⟩
  · constructor
    · apply div_nonneg <;> positivity
    · apply div_le_one_of_le₀
      · exact_mod_cast Finset.card_le_card Finset.inter_subset_union
      · positivity

/-- Jaccard similarity is symmetric. -/
theorem calculate_jaccard_similarity_comm (a b : String) :
    calculate_jaccard_similarity a b = calculate_jaccard_similarity b a := by
  unfold calculate_jaccard_similarity
  by_cases ha : jaccard_tokenize a = ∅ <;> by_cases hb : jaccard_tokenize b = ∅ <;>
    simp [ha, hb, Finset.inter_comm, Finset.union_comm]

theorem pairwise_similarities_mem_bounds (l : List String) :
    ∀ x ∈ pairwise_similarities l, 0 ≤ x ∧ x ≤ 1 := by
  induction l with
  | nil => intro x hx; cases hx
  | cons a xs ih =>
    intro x hx
    simp only [pairwise_similarities, List.mem_append, List.mem_map] at hx
    rcases hx with ⟨b, _, rfl⟩ | hx
    · exact calculate_jaccard_similarity_bounds a b
    · exact ih x hx

theorem sum_map_comm_arg (x : String) (l : List String) :
    (l.map (fun a => calculate_jaccard_similarity a x)).sum
      = (l.map (fun a => calculate_jaccard_similarity x a)).sum := by
  congr 1
  apply List.map_congr_left
  intro a _
  exact calculate_jaccard_similarity_comm a x

/-- Unordered-pair double counting: twice the pairwise sum plus the
diagonal equals the full double sum. -/
theorem pairwise_similarities_double_count (l : List String) :
    2 * (pairwise_similarities l).sum
      + (l.map (fun x => calculate_jaccard_similarity x x)).sum
      = (l.map (fun x => (l.map (calculate_jaccard_similarity x)).sum)).sum := by
  induction l with
  | nil => simp [pairwise_similarities]
  | cons a xs ih =>
    simp only [pairwise_similarities, List.map_cons, List.sum_cons, List.sum_append]
    rw [List.sum_map_add, sum_map_comm_arg a xs, ← ih]
    ring

/-- The pairwise sum is invariant under permutation of the inputs. -/
theorem pairwise_similarities_sum_perm {l l' : List String} (h : l.Perm l') :
    (pairwise_similarities l).sum = (pairwise_similarities l').sum := by
  have hdiag : (l.map (fun x => calculate_jaccard_similarity x x)).sum
      = (l'.map (fun x => calculate_jaccard_similarity x x)).sum :=
    (h.map _).sum_eq
  have hdouble : (l.map (fun x => (l.map (calculate_jaccard_similarity x)).sum)).sum
      = (l'.map (fun x => (l'.map (calculate_jaccard_similarity x)).sum)).sum := by
    have hinner : (l.map (fun x => (l.map (calculate_jaccard_similarity x)).sum))
        = (l.map (fun x => (l'.map (calculate_jaccard_similarity x)).sum)) := by
      apply List.map_congr_left
      intro x _
      exact ((h.map _)).sum_eq
    rw [hinner]
    exact ((h.map _)).sum_eq
  have h1 := pairwise_similarities_double_count l
  have h2 := pairwise_similarities_double_count l'
  rw [hdiag, hdouble] at h1
  rw [← h2] at h1
  linarith

/-- The number of unordered pairs depends only on the input length. -/
theorem pairwise_similarities_length_eq :
    ∀ (l l' : List String), l.length = l'.length →
      (pairwise_similarities l).length = (pairwise_similarities l').length := by
  intro l
  induction l with
  | nil =>
    intro l' h
    cases l' with
    | nil => rfl
    | cons b ys => cases h
  | cons a xs ih =>
    intro l' h
    cases l' with
    | nil => cases h
    | cons b ys =>
      simp only [List.length_cons, Nat.succ_inj] at h
      simp only [pairwise_similarities, List.length_append, List.length_map, h, ih ys h]

/-- C7 (spec-modelled): the lexical-overlap entropy estimator.
(1) Zero or one proposals give exactly 0; (2) the result is always in
[0, 1]; (3) it is invariant under permutation of the proposals (and, as a
pure function, deterministic); the pairwise similarity is (4) 1 when both
token sets are empty and (5, 6) 0 when exactly one is empty. -/
theorem claim_C7_jaccard_estimator :
    (∀ ps : List ProposerOutput, ps.length ≤ 1 → jaccard_calculate_entropy ps = 0) ∧
    (∀ ps : List ProposerOutput,
      0 ≤ jaccard_calculate_entropy ps ∧ jaccard_calculate_entropy ps ≤ 1) ∧
    (∀ ps ps' : List ProposerOutput, ps.Perm ps' →
      jaccard_calculate_entropy ps = jaccard_calculate_entropy ps') ∧
    (∀ a b : String, jaccard_tokenize a = ∅ → jaccard_tokenize b = ∅ →
      calculate_jaccard_similarity a b = 1) ∧
    (∀ a b : String, jaccard_tokenize a = ∅ → ¬ jaccard_tokenize b = ∅ →
      calculate_jaccard_similarity a b = 0) ∧
    (∀ a b : String, ¬ jaccard_tokenize a = ∅ → jaccard_tokenize b = ∅ →
      calculate_jaccard_similarity a b = 0) := by
  refine ⟨?_, ?_, ?_, ?_, ?_, ?_⟩
  · intro ps h
    simp [jaccard_calculate_entropy, h]
  · intro ps
    unfold jaccard_calculate_entropy
    dsimp only
    split_ifs with h
    · exact ⟨le_refl 0, zero_le_one⟩
    · have hmem := pairwise_similarities_mem_bounds (ps.map ProposerOutput.content)
      set sims := pairwise_similarities (ps.map ProposerOutput.content) with hsims
      have h0 : 0 ≤ sims.sum := List.sum_nonneg (fun x hx => (hmem x hx).1)
      have h1 : sims.sum ≤ (sims.length : Rat) := by
        have := List.sum_le_card_nsmul sims 1 (fun x hx => (hmem x hx).2)
        simpa using this
      have hd0 : 0 ≤ sims.sum / (sims.length : Rat) := div_nonneg h0 (by positivity)
      have hd1 : sims.sum / (sims.length : Rat) ≤ 1 := div_le_one_of_le₀ h1 (by positivity)
      constructor <;> linarith
  · intro ps ps' h
    unfold jaccard_calculate_entropy
    dsimp only
    have hlen : ps.length = ps'.length := h.length_eq
    have hmap : (ps.map ProposerOutput.content).Perm (ps'.map ProposerOutput.content) :=
      h.map _
    rw [hlen, pairwise_similarities_sum_perm hmap,
      pairwise_similarities_length_eq (ps.map ProposerOutput.content)
        (ps'.map ProposerOutput.content) (by simp [hlen])]
  · intro a b ha hb
    simp [calculate_jaccard_similarity, ha, hb]
  · intro a b ha hb
    simp [calculate_jaccard_similarity, ha, hb]
  · intro a b ha hb
    simp [calculate_jaccard_similarity, ha, hb]

/-- Witness for C7: a singleton input has entropy 0; swapping two
proposals leaves the entropy unchanged; two punctuation-only contents are
judged identical (similarity 1) while empty-versus-nonempty gives 0. -/
theorem claim_C7_jaccard_estimator_witness :
    ([wOut "A"].length ≤ 1 ∧ jaccard_calculate_entropy [wOut "A"] = 0) ∧
    ([wOut "A", wOut "B"].Perm [wOut "B", wOut "A"] ∧
      jaccard_calculate_entropy [wOut "A", wOut "B"]
        = jaccard_calculate_entropy [wOut "B", wOut "A"]) ∧
    (jaccard_tokenize "!!!" = ∅ ∧ jaccard_tokenize "..." = ∅ ∧
      calculate_jaccard_similarity "!!!" "..." = 1) ∧
    (jaccard_tokenize "" = ∅ ∧ ¬ jaccard_tokenize "some content" = ∅ ∧
      calculate_jaccard_similarity "" "some content" = 0) :=
  ⟨⟨by decide, claim_C7_jaccard_estimator.1 [wOut "A"] (by decide)⟩,
   ⟨List.Perm.swap (wOut "B") (wOut "A") [],
    claim_C7_jaccard_estimator.2.2.1 [wOut "A", wOut "B"] [wOut "B", wOut "A"]
      (List.Perm.swap (wOut "B") (wOut "A") [])⟩,
   ⟨by decide, by decide,
    claim_C7_jaccard_estimator.2.2.2.1 "!!!" "..." (by decide) (by decide)⟩,
   ⟨by decide, by decide,
    claim_C7_jaccard_estimator.2.2.2.2.1 "" "some content" (by decide) (by decide)⟩⟩
